import Mathlib

/-!
Verification of `src/helpers/resting_state_networks.py` from the
human-multi-area-model repository.

The module defines two Python dictionaries, `left_ordering` and
`right_ordering`, mapping cortical region names (Desikan-Killiany atlas)
to resting-state-network labels.  We embed each dictionary as an
association list of string pairs, in the exact order the source writes
the entries, and model dictionary access `d[k]` by `List.lookup`
(Python dict keys here are unique, so first-match lookup coincides with
dict semantics; a missing key, which raises `KeyError` in Python, is
modelled by `none`).
-/

namespace RestingStateNetworks

/-- Embedding of the Python dict `left_ordering`
(src/helpers/resting_state_networks.py, lines 15-48), entries in source
order. -/
def left_ordering : List (String × String) :=
  [("isthmuscingulate", "DMN"),
   ("medialorbitofrontal", "DMN"),
   ("posteriorcingulate", "DMN"),
   ("precuneus", "DMN"),
   ("rostralanteriorcingulate", "DMN"),
   ("lateralorbitofrontal", "DMN"),
   ("parahippocampal", "DMN"),
   ("caudalanteriorcingulate", "DAN"),
   ("inferiortemporal", "DAN"),
   ("middletemporal", "DAN"),
   ("parsopercularis", "DAN"),
   ("parsorbitalis", "DAN"),
   ("parstriangularis", "DAN"),
   ("insula", "SAN"),
   ("rostralmiddlefrontal", "SAN"),
   ("supramarginal", "SAN"),
   ("caudalmiddlefrontal", "SAN"),
   ("superiortemporal", "AUD"),
   ("cuneus", "VIS"),
   ("lateraloccipital", "VIS"),
   ("fusiform", "VIS"),
   ("lingual", "VIS"),
   ("bankssts", "other"),
   ("entorhinal", "other"),
   ("frontalpole", "other"),
   ("inferiorparietal", "other"),
   ("superiorfrontal", "other"),
   ("paracentral", "other"),
   ("pericalcarine", "other"),
   ("postcentral", "other"),
   ("precentral", "other"),
   ("superiorparietal", "other"),
   ("temporalpole", "other"),
   ("transversetemporal", "other")]

/-- Embedding of the Python dict `right_ordering`
(src/helpers/resting_state_networks.py, lines 50-83), entries in source
order. -/
def right_ordering : List (String × String) :=
  [("isthmuscingulate", "DMN"),
   ("medialorbitofrontal", "DMN"),
   ("posteriorcingulate", "DMN"),
   ("precuneus", "DMN"),
   ("rostralanteriorcingulate", "DMN"),
   ("lateralorbitofrontal", "DMN"),
   ("parahippocampal", "DMN"),
   ("caudalanteriorcingulate", "DMN"),
   ("inferiortemporal", "DAN"),
   ("middletemporal", "DAN"),
   ("parsopercularis", "DAN"),
   ("parsorbitalis", "DAN"),
   ("parstriangularis", "DAN"),
   ("insula", "SAN"),
   ("rostralmiddlefrontal", "SAN"),
   ("supramarginal", "SAN"),
   ("caudalmiddlefrontal", "SAN"),
   ("superiortemporal", "AUD"),
   ("cuneus", "VIS"),
   ("lateraloccipital", "VIS"),
   ("fusiform", "VIS"),
   ("lingual", "VIS"),
   ("bankssts", "other"),
   ("entorhinal", "other"),
   ("frontalpole", "other"),
   ("inferiorparietal", "other"),
   ("superiorfrontal", "other"),
   ("paracentral", "other"),
   ("pericalcarine", "other"),
   ("postcentral", "other"),
   ("precentral", "other"),
   ("superiorparietal", "other"),
   ("temporalpole", "other"),
   ("transversetemporal", "other")]

/-- The keys of a hemisphere table, in source order (Python `d.keys()`). -/
def keys (t : List (String × String)) : List String :=
  t.map Prod.fst

/-- The values of a hemisphere table, in source order (Python `d.values()`). -/
def values (t : List (String × String)) : List String :=
  t.map Prod.snd

/-- Python dictionary access `t[k]`: `some v` on a hit, `none` where Python
raises `KeyError`. -/
def lookup (t : List (String × String)) (k : String) : Option String :=
  List.lookup k t

/-- Python dictionary access viewed as a state transformer: it returns the
looked-up value together with the table after the access.  A Python dict
read never mutates the dict, so the table component is returned unchanged. -/
def lookupState (t : List (String × String)) (k : String) :
    Option String × List (String × String) :=
  (List.lookup k t, t)

/-- The closed set of network labels used by the module. -/
def labelSet : List String :=
  ["DMN", "DAN", "SAN", "AUD", "VIS", "other"]

/-- A key absent from an association list looks up to `none`. -/
theorem lookup_eq_none_of_not_mem_keys (k : String) :
    ∀ t : List (String × String), k ∉ keys t → List.lookup k t = none := by
  intro t
  induction t with
  | nil => intro _; rfl
  | cons p rest ih =>
      intro h
      have hk : k ≠ p.1 := by
        intro he
        exact h (by simp [keys, he])
      have hrest : k ∉ keys rest := by
        intro hm
        exact h (by simp [keys] at hm ⊢; exact Or.inr hm)
      have : (k == p.1) = false := by
        simp [hk]
      simp [List.lookup, this, ih hrest]

/-- Claim C1: the key sets of `left_ordering` and `right_ordering` are
identical: every key of one table is a key of the other. -/
theorem key_sets_identical :
    (∀ k ∈ keys left_ordering, k ∈ keys right_ordering) ∧
    (∀ k ∈ keys right_ordering, k ∈ keys left_ordering) := by
  decide

/-- Claim C2 (counterexample): the tables do NOT have 33 keys each: both
hemisphere tables hold 34 pairwise-distinct keys, so the claimed count of
33 is false for each table. -/
theorem tables_do_not_have_33_keys :
    (keys left_ordering).length ≠ 33 ∧ (keys right_ordering).length ≠ 33 := by
  decide

/-- Claim C2 (amended): each hemisphere table contains exactly 34 region-name
keys, pairwise distinct, so lookup succeeds on exactly 34 distinct region
names per table. -/
theorem tables_have_34_distinct_keys :
    (keys left_ordering).length = 34 ∧ (keys left_ordering).Nodup ∧
    (keys right_ordering).length = 34 ∧ (keys right_ordering).Nodup := by
  decide

/-- Claim C3: every value stored in either table belongs to the closed
six-element label set {DMN, DAN, SAN, AUD, VIS, other}. -/
theorem values_in_closed_label_set :
    (∀ p ∈ left_ordering, p.2 ∈ labelSet) ∧
    (∀ p ∈ right_ordering, p.2 ∈ labelSet) := by
  decide

/-- Claim C4: the literal spot checks hold: caudalanteriorcingulate is DAN
on the left but DMN on the right; insula is SAN, cuneus is VIS,
superiortemporal is AUD and bankssts is literally "other" on the left. -/
theorem literal_spot_checks :
    lookup left_ordering "caudalanteriorcingulate" = some "DAN" ∧
    lookup right_ordering "caudalanteriorcingulate" = some "DMN" ∧
    lookup left_ordering "insula" = some "SAN" ∧
    lookup left_ordering "cuneus" = some "VIS" ∧
    lookup left_ordering "superiortemporal" = some "AUD" ∧
    lookup left_ordering "bankssts" = some "other" := by
  decide

/-- Claim C5: a region name absent from the tables fails to look up in both
hemisphere tables (`KeyError` in Python, `none` here); in particular such a
lookup never produces the default label "other". -/
theorem unknown_region_lookup_fails (k : String)
    (hl : k ∉ keys left_ordering) (hr : k ∉ keys right_ordering) :
    lookup left_ordering k = none ∧ lookup right_ordering k = none ∧
    lookup left_ordering k ≠ some "other" ∧
    lookup right_ordering k ≠ some "other" := by
  have h1 : lookup left_ordering k = none :=
    lookup_eq_none_of_not_mem_keys k left_ordering hl
  have h2 : lookup right_ordering k = none :=
    lookup_eq_none_of_not_mem_keys k right_ordering hr
  exact ⟨h1, h2, by simp [h1], by simp [h2]⟩

/-- Witness for claim C5 at the concrete input "unknown_region". -/
theorem unknown_region_lookup_fails_witness :
    lookup left_ordering "unknown_region" = none ∧
    lookup right_ordering "unknown_region" = none ∧
    lookup left_ordering "unknown_region" ≠ some "other" ∧
    lookup right_ordering "unknown_region" ≠ some "other" :=
  unknown_region_lookup_fails "unknown_region" (by decide) (by decide)

/-- Claim C6: lookup is deterministic and idempotent: looking a key up
again, in the table state left behind by a first lookup, returns the same
value, for either hemisphere table. -/
theorem lookup_idempotent (k : String) :
    (lookupState (lookupState left_ordering k).2 k).1 =
      (lookupState left_ordering k).1 ∧
    (lookupState (lookupState right_ordering k).2 k).1 =
      (lookupState right_ordering k).1 := by
  exact ⟨rfl, rfl⟩

/-- Claim C7: every key of both tables is a well-formed region name: keys
are pairwise distinct within each table, every character of every key is a
lowercase letter, and no key contains whitespace. -/
theorem keys_well_formed :
    (keys left_ordering).Nodup ∧ (keys right_ordering).Nodup ∧
    (∀ k ∈ keys left_ordering,
      k.data.all (fun c => c.isLower && !c.isWhitespace) = true) ∧
    (∀ k ∈ keys right_ordering,
      k.data.all (fun c => c.isLower && !c.isWhitespace) = true) := by
  decide

/-- Claim C8: lookup has no side effects: after any lookup, successful or
failing, both tables are unchanged. -/
theorem lookup_leaves_tables_unchanged (k : String) :
    (lookupState left_ordering k).2 = left_ordering ∧
    (lookupState right_ordering k).2 = right_ordering := by
  exact ⟨rfl, rfl⟩

/-- Claim C9: the two hemisphere tables differ at exactly one key: they
agree at every key other than caudalanteriorcingulate, and at that key the
left table says DAN while the right table says DMN. -/
theorem tables_differ_only_at_caudalanteriorcingulate :
    (∀ k ∈ keys left_ordering, k ≠ "caudalanteriorcingulate" →
      lookup left_ordering k = lookup right_ordering k) ∧
    lookup left_ordering "caudalanteriorcingulate" = some "DAN" ∧
    lookup right_ordering "caudalanteriorcingulate" = some "DMN" := by
  decide

/-- Claim C10: every label of the closed set is used: each of the six
labels occurs as a value in both tables, and AUD is assigned to exactly one
region per table, namely superiortemporal. -/
theorem every_label_used :
    (∀ l ∈ labelSet, l ∈ values left_ordering) ∧
    (∀ l ∈ labelSet, l ∈ values right_ordering) ∧
    (values left_ordering).count "AUD" = 1 ∧
    (values right_ordering).count "AUD" = 1 ∧
    lookup left_ordering "superiortemporal" = some "AUD" ∧
    lookup right_ordering "superiortemporal" = some "AUD" := by
  decide

end RestingStateNetworks
